import Mathlib

/-!
Verification development for the OPC memory MCP server (src/main.py).

The file shallowly embeds the dispatch-and-normalization layer of the server:
configuration resolution (get_opc_dir), command construction, bounded process
execution (run_opc_script), and result normalization of the five tools
(store_learning, recall_learnings, index_artifacts, mark_handoff,
query_artifacts).  External process behaviour is an oracle parameter; Python
library primitives used by the code (str.strip, str.split, the string "or"
idiom, json.loads, dict.get, truthiness) are modelled explicitly below.
-/

namespace OpcMemory

/-- ASCII whitespace recognised by default Python str.strip / str.split. -/
def isPySpace (c : Char) : Bool :=
  c == ' ' || c == '\t' || c == '\n' || c == '\r' || c == '\x0b' || c == '\x0c'

/-- Python str.strip(): remove leading and trailing whitespace. -/
def pyStrip (s : String) : String :=
  String.mk (((s.toList.dropWhile isPySpace).reverse.dropWhile isPySpace).reverse)

/-- Worker for pyStrip-compatible splitting: split on runs of whitespace,
producing no empty pieces (Python str.split() with no argument). -/
def pySplitChars : List Char → List Char → List String
  | [], acc => if acc.isEmpty then [] else [String.mk acc.reverse]
  | c :: cs, acc =>
    if isPySpace c then
      (if acc.isEmpty then [] else [String.mk acc.reverse]) ++ pySplitChars cs []
    else
      pySplitChars cs (c :: acc)

/-- Python str.split() with no argument. -/
def pySplit (s : String) : List String :=
  pySplitChars s.toList []

/-- the Python idiom s or d on strings: d when s is empty (falsy), else s. -/
def pyOr (s dflt : String) : String :=
  if s = "" then dflt else s

/-- JSON values as returned by Python json.loads.  Number literals are kept
as their source token; their numeric value never matters to this layer. -/
inductive Json where
  | null
  | bool (b : Bool)
  | num (lit : String)
  | str (s : String)
  | arr (elems : List Json)
  | obj (members : List (String × Json))

/-- Whitespace skipped between JSON tokens. -/
def jsonIsWs (c : Char) : Bool :=
  c == ' ' || c == '\t' || c == '\n' || c == '\r'

/-- Drop leading JSON whitespace. -/
def jsonSkipWs : List Char → List Char
  | [] => []
  | c :: cs => if jsonIsWs c then jsonSkipWs cs else c :: cs

/-- Value of a hexadecimal digit. -/
def hexVal (c : Char) : Option Nat :=
  if '0' ≤ c ∧ c ≤ '9' then some (c.toNat - '0'.toNat)
  else if 'a' ≤ c ∧ c ≤ 'f' then some (c.toNat - 'a'.toNat + 10)
  else if 'A' ≤ c ∧ c ≤ 'F' then some (c.toNat - 'A'.toNat + 10)
  else none

/-- Parse the body of a JSON string after the opening quote, returning the
decoded characters and the remaining input.  Unescaped control characters and
unknown escapes are rejected, as in strict Python json.loads. -/
def parseStrBody : List Char → Option (List Char × List Char)
  | [] => none
  | '"' :: cs => some ([], cs)
  | '\\' :: e :: cs =>
    if e = '"' ∨ e = '\\' ∨ e = '/' then
      (parseStrBody cs).map fun p => (e :: p.1, p.2)
    else if e = 'b' then (parseStrBody cs).map fun p => ('\x08' :: p.1, p.2)
    else if e = 'f' then (parseStrBody cs).map fun p => ('\x0c' :: p.1, p.2)
    else if e = 'n' then (parseStrBody cs).map fun p => ('\n' :: p.1, p.2)
    else if e = 'r' then (parseStrBody cs).map fun p => ('\r' :: p.1, p.2)
    else if e = 't' then (parseStrBody cs).map fun p => ('\t' :: p.1, p.2)
    else if e = 'u' then
      match cs with
      | h1 :: h2 :: h3 :: h4 :: cs4 =>
        match hexVal h1, hexVal h2, hexVal h3, hexVal h4 with
        | some v1, some v2, some v3, some v4 =>
          (parseStrBody cs4).map fun p => (Char.ofNat (((v1 * 16 + v2) * 16 + v3) * 16 + v4) :: p.1, p.2)
        | _, _, _, _ => none
      | _ => none
    else none
  | '\\' :: [] => none
  | c :: cs =>
    if c.toNat < 32 then none
    else (parseStrBody cs).map fun p => (c :: p.1, p.2)

/-- Parse an optional JSON fraction part. -/
def parseFrac : List Char → Option (List Char × List Char)
  | '.' :: ds =>
    match ds.span Char.isDigit with
    | ([], _) => none
    | (fs, rest) => some ('.' :: fs, rest)
  | cs => some ([], cs)

/-- Parse an optional JSON exponent part. -/
def parseExp : List Char → Option (List Char × List Char)
  | e :: ds =>
    if e = 'e' ∨ e = 'E' then
      let signAnd : List Char × List Char :=
        match ds with
        | '+' :: r => (['+'], r)
        | '-' :: r => (['-'], r)
        | _ => ([], ds)
      match signAnd.2.span Char.isDigit with
      | ([], _) => none
      | (es, rest) => some (e :: (signAnd.1 ++ es), rest)
    else some ([], e :: ds)
  | [] => some ([], [])

/-- Parse a JSON number token.  A leading zero may only stand alone in the
integer part, as in the regular expression of the Python scanner. -/
def parseNumber (cs : List Char) : Option (String × List Char) :=
  let signAnd : List Char × List Char :=
    match cs with
    | '-' :: rest => (['-'], rest)
    | _ => ([], cs)
  match signAnd.2.span Char.isDigit with
  | ([], _) => none
  | (intDigits, afterInt) =>
    match intDigits with
    | '0' :: d :: ds => some (String.mk (signAnd.1 ++ ['0']), (d :: ds) ++ afterInt)
    | _ =>
      match parseFrac afterInt with
      | none => none
      | some (fracChars, afterFrac) =>
        match parseExp afterFrac with
        | none => none
        | some (expChars, rest) =>
          some (String.mk (signAnd.1 ++ intDigits ++ fracChars ++ expChars), rest)

/-- Match a literal keyword at the head of the input. -/
def matchKeyword : List Char → List Char → Option (List Char)
  | [], cs => some cs
  | _ :: _, [] => none
  | p :: ps, c :: cs => if c = p then matchKeyword ps cs else none

mutual

/-- Fuel-indexed recursive-descent JSON value analysis mirroring json.loads. -/
def parseValue : Nat → List Char → Option (Json × List Char)
  | 0, _ => none
  | fuel + 1, cs =>
    match jsonSkipWs cs with
    | [] => none
    | c :: rest =>
      if c = '{' then
        match jsonSkipWs rest with
        | '}' :: rest2 => some (.obj [], rest2)
        | rest2 => (parseMembers fuel rest2).map fun p => (.obj p.1, p.2)
      else if c = '[' then
        match jsonSkipWs rest with
        | ']' :: rest2 => some (.arr [], rest2)
        | rest2 => (parseElements fuel rest2).map fun p => (.arr p.1, p.2)
      else if c = '"' then
        (parseStrBody rest).map fun p => (.str (String.mk p.1), p.2)
      else
        match matchKeyword ['t', 'r', 'u', 'e'] (c :: rest) with
        | some r => some (.bool true, r)
        | none =>
        match matchKeyword ['f', 'a', 'l', 's', 'e'] (c :: rest) with
        | some r => some (.bool false, r)
        | none =>
        match matchKeyword ['n', 'u', 'l', 'l'] (c :: rest) with
        | some r => some (.null, r)
        | none =>
        match matchKeyword ['N', 'a', 'N'] (c :: rest) with
        | some r => some (.num "NaN", r)
        | none =>
        match matchKeyword ['I', 'n', 'f', 'i', 'n', 'i', 't', 'y'] (c :: rest) with
        | some r => some (.num "Infinity", r)
        | none =>
        match matchKeyword ['-', 'I', 'n', 'f', 'i', 'n', 'i', 't', 'y'] (c :: rest) with
        | some r => some (.num "-Infinity", r)
        | none =>
        (parseNumber (c :: rest)).map fun p => (.num p.1, p.2)

/-- Elements of a non-empty JSON array, up to and including the closing bracket. -/
def parseElements : Nat → List Char → Option (List Json × List Char)
  | 0, _ => none
  | fuel + 1, cs =>
    match parseValue fuel cs with
    | none => none
    | some (v, rest) =>
      match jsonSkipWs rest with
      | ',' :: rest2 => (parseElements fuel rest2).map fun p => (v :: p.1, p.2)
      | ']' :: rest2 => some ([v], rest2)
      | _ => none

/-- Members of a non-empty JSON object, up to and including the closing brace. -/
def parseMembers : Nat → List Char → Option (List (String × Json) × List Char)
  | 0, _ => none
  | fuel + 1, cs =>
    match jsonSkipWs cs with
    | '"' :: rest =>
      match parseStrBody rest with
      | none => none
      | some (keyChars, rest2) =>
        match jsonSkipWs rest2 with
        | ':' :: rest3 =>
          match parseValue fuel rest3 with
          | none => none
          | some (v, rest4) =>
            match jsonSkipWs rest4 with
            | ',' :: rest5 =>
              (parseMembers fuel rest5).map fun p => ((String.mk keyChars, v) :: p.1, p.2)
            | '}' :: rest5 => some ([(String.mk keyChars, v)], rest5)
            | _ => none
        | _ => none
    | _ => none

end

/-- Python json.loads, modelled as a total function: some value on a
well-formed document (with arbitrary surrounding whitespace), none when the
text does not decode (json.JSONDecodeError). -/
def json_loads (s : String) : Option Json :=
  match parseValue (2 * s.length + 2) s.toList with
  | some (v, rest) => if jsonSkipWs rest = [] then some v else none
  | none => none

/-- Python len when the decoded value is a list, else the literal 1, as in
the count fields of recall_learnings and query_artifacts. -/
def jsonCount : Json → Nat
  | .arr elems => elems.length
  | _ => 1

/-- Whether a JSON number token denotes zero (all mantissa digits are zero);
the NaN and Infinity tokens have no digits and are not zero. -/
def numTokenIsZero (lit : String) : Bool :=
  let mantissa := lit.toList.takeWhile fun c => c != 'e' && c != 'E'
  let digits := mantissa.filter Char.isDigit
  !digits.isEmpty && digits.all fun c => c == '0'

/-- Python truthiness of a value decoded by json.loads. -/
def pyTruthy : Json → Bool
  | .null => false
  | .bool b => b
  | .num lit => !numTokenIsZero lit
  | .str s => s != ""
  | .arr elems => !elems.isEmpty
  | .obj members => !members.isEmpty

/-- Python dict.get on the members of a decoded JSON object: later duplicate
keys override earlier ones, absent key gives None. -/
def pyDictGet (members : List (String × Json)) (key : String) : Option Json :=
  members.foldl (fun acc m => if m.1 = key then some m.2 else acc) none

/-- Primitive Python values appearing in the tool response dictionaries. -/
inductive PyVal where
  | bool (b : Bool)
  | str (s : String)
  | int (n : Nat)
  | json (j : Json)

/-- A Python dict literal as returned by the tool handlers, in key order. -/
abbrev PyDict := List (String × PyVal)

/-- Exceptions that get_opc_dir can raise besides the two it catches. -/
inductive PyError where
  | attributeError
  | typeError
deriving DecidableEq

/-- The state get_opc_dir consults: the CLAUDE_OPC_DIR environment variable,
Path.exists on arbitrary paths, and existence/readability of the
~/.claude/opc.json settings file (error means read_text raised OSError). -/
structure OpcEnv where
  claude_opc_dir : Option String
  path_exists : String → Bool
  config_exists : Bool
  config_read_text : Except Unit String

/-- The hardcoded fallback directory of get_opc_dir. -/
def fallbackOpcDir : String := "/Users/stephenfeather/opc"

/-- Steps 2 and 3 of get_opc_dir: the settings-file attempt guarded by
except (json.JSONDecodeError, OSError), then the hardcoded fallback.
config.get raises AttributeError when the decoded document is not an object,
and Path(v) raises TypeError when v is a truthy non-string; neither
exception is caught by the except clause, so they escape as errors. -/
def get_opc_dir_config (env : OpcEnv) : Except PyError String :=
  if env.config_exists then
    match env.config_read_text with
    | .error _ => .ok fallbackOpcDir
    | .ok text =>
      match json_loads text with
      | none => .ok fallbackOpcDir
      | some (Json.obj members) =>
        match pyDictGet members "opc_dir" with
        | none => .ok fallbackOpcDir
        | some v =>
          if pyTruthy v then
            match v with
            | Json.str s => if env.path_exists s then .ok s else .ok fallbackOpcDir
            | _ => .error .typeError
          else .ok fallbackOpcDir
      | some _ => .error .attributeError
  else .ok fallbackOpcDir

/-- get_opc_dir from src/main.py: environment override first (accepted when
non-empty and existing), then the settings file, then the fallback. -/
def get_opc_dir (env : OpcEnv) : Except PyError String :=
  match env.claude_opc_dir with
  | some env_dir =>
    if env_dir ≠ "" ∧ env.path_exists env_dir then .ok env_dir
    else get_opc_dir_config env
  | none => get_opc_dir_config env

/-- The fields of subprocess.CompletedProcess captured by run_opc_script. -/
structure CompletedProcess where
  returncode : Int
  stdout : String
  stderr : String

/-- Behaviour of one external process: the wall-clock seconds it would need
to finish, and its result if allowed to finish. -/
structure ProcBehavior where
  duration : Nat
  result : CompletedProcess

/-- Oracle giving the behaviour of the external process for each command. -/
abbrev Sys := List String → ProcBehavior

/-- The command vector built by run_opc_script for a script and arguments. -/
def opcCmd (script : String) (args : List String) : List String :=
  ["uv", "run", "python", "scripts/core/" ++ script] ++ args

/-- The timeout, in seconds, that run_opc_script passes to subprocess.run. -/
def subprocessTimeout : Nat := 60

/-- Outcome of run_opc_script: a completed process, or subprocess.run raising
TimeoutExpired (after killing the child) because the process did not finish
within the timeout. -/
inductive RunOutcome where
  | ok (result : CompletedProcess)
  | timedOut

/-- run_opc_script from src/main.py: run the command under the OPC directory
with a 60-second timeout and captured output streams. -/
def run_opc_script (sys : Sys) (script : String) (args : List String) : RunOutcome :=
  let p := sys (opcCmd script args)
  if p.duration > subprocessTimeout then .timedOut else .ok p.result

/-- Language-level faults that can escape a tool handler; the handlers have
no try/except, so TimeoutExpired from subprocess.run propagates out. -/
inductive Fault where
  | timeoutExpired (cmd : List String) (timeout : Nat)

/-- What a tool handler produces: a returned response dict, or a raised
fault that escaped the handler body. -/
inductive ToolResult where
  | response (d : PyDict)
  | fault (f : Fault)

/-- An instrumented tool-handler execution: the commands actually spawned,
whether a spawned child was killed by the timeout machinery, and the
result of the handler. -/
structure ToolRun where
  spawned : List (List String)
  killed : Bool
  result : ToolResult

/-- One handler call to run_opc_script followed by the own
normalization of the completed process.  On timeout, subprocess.run kills the
child and raises TimeoutExpired, which the handler does not catch. -/
def callRun (sys : Sys) (script : String) (args : List String)
    (respond : CompletedProcess → PyDict) : ToolRun :=
  match run_opc_script sys script args with
  | .timedOut =>
    ⟨[opcCmd script args], true, .fault (.timeoutExpired (opcCmd script args) subprocessTimeout)⟩
  | .ok result => ⟨[opcCmd script args], false, .response (respond result)⟩

/-- Argument vector built by store_learning. -/
def store_learning_args (content learning_type session_id context tags confidence : String) :
    List String :=
  ["--session-id", session_id,
   "--type", learning_type,
   "--content", content,
   "--confidence", confidence]
  ++ (if context ≠ "" then ["--context", context] else [])
  ++ (if tags ≠ "" then ["--tags", tags] else [])

/-- Normalization of the completed process in store_learning. -/
def storeRespond (result : CompletedProcess) : PyDict :=
  if result.returncode ≠ 0 then
    [("success", .bool false),
     ("error", .str (pyOr result.stderr "Unknown error")),
     ("stdout", .str result.stdout)]
  else
    [("success", .bool true),
     ("message", .str (pyOr (pyStrip result.stdout) "Learning stored successfully"))]

/-- The store_learning tool handler. -/
def store_learning (content learning_type session_id context tags confidence : String)
    (sys : Sys) : ToolRun :=
  callRun sys "store_learning.py"
    (store_learning_args content learning_type session_id context tags confidence)
    storeRespond

/-- Argument vector built by recall_learnings.  The threshold float is
carried opaquely as its Python str() rendering. -/
def recall_learnings_args (query : String) (k : Int) (text_only vector_only : Bool)
    (threshold_str : String) : List String :=
  ["--query", query,
   "--k", toString k,
   "--threshold", threshold_str]
  ++ (if text_only then ["--text-only"] else [])
  ++ (if vector_only then ["--vector-only"] else [])

/-- Normalization of the completed process in recall_learnings. -/
def recallRespond (result : CompletedProcess) : PyDict :=
  if result.returncode ≠ 0 then
    [("success", .bool false),
     ("error", .str (pyOr result.stderr "Unknown error")),
     ("stdout", .str result.stdout)]
  else
    match json_loads result.stdout with
    | some learnings =>
      [("success", .bool true),
       ("learnings", .json learnings),
       ("count", .int (jsonCount learnings))]
    | none =>
      [("success", .bool true),
       ("raw_output", .str (pyStrip result.stdout))]

/-- The recall_learnings tool handler. -/
def recall_learnings (query : String) (k : Int) (text_only vector_only : Bool)
    (threshold_str : String) (sys : Sys) : ToolRun :=
  callRun sys "recall_learnings.py"
    (recall_learnings_args query k text_only vector_only threshold_str)
    recallRespond

/-- Argument construction of index_artifacts, including its two validation
early returns (missing file_path for mode=file, and an unknown mode). -/
def index_artifacts_build (mode file_path : String) : Except PyDict (List String) :=
  if mode = "file" then
    if file_path = "" then
      .error
        [("success", .bool false),
         ("error", .str "file_path is required when mode=file")]
    else .ok ["--file", file_path]
  else if mode = "all" ∨ mode = "handoffs" ∨ mode = "plans" ∨ mode = "continuity" then
    .ok ["--" ++ mode]
  else
    .error
      [("success", .bool false),
       ("error", .str ("Invalid mode: " ++ mode ++ ". Use: all, handoffs, plans, continuity, or file"))]

/-- Normalization of the completed process in index_artifacts. -/
def indexRespond (result : CompletedProcess) : PyDict :=
  if result.returncode ≠ 0 then
    [("success", .bool false),
     ("error", .str (pyOr result.stderr "Unknown error")),
     ("stdout", .str result.stdout)]
  else
    [("success", .bool true),
     ("message", .str (pyOr (pyStrip result.stdout) "Artifacts indexed successfully"))]

/-- The index_artifacts tool handler. -/
def index_artifacts (mode file_path : String) (sys : Sys) : ToolRun :=
  match index_artifacts_build mode file_path with
  | .error d => ⟨[], false, .response d⟩
  | .ok args => callRun sys "artifact_index.py" args indexRespond

/-- Argument vector built by mark_handoff; the outcome value is forwarded
unconditionally. -/
def mark_handoff_args (outcome handoff_id notes : String) : List String :=
  ["--outcome", outcome]
  ++ (if handoff_id ≠ "" then ["--id", handoff_id] else [])
  ++ (if notes ≠ "" then ["--notes", notes] else [])

/-- Normalization of the completed process in mark_handoff. -/
def markRespond (result : CompletedProcess) : PyDict :=
  if result.returncode ≠ 0 then
    [("success", .bool false),
     ("error", .str (pyOr result.stderr "Unknown error")),
     ("stdout", .str result.stdout)]
  else
    [("success", .bool true),
     ("message", .str (pyOr (pyStrip result.stdout) "Handoff marked successfully"))]

/-- The mark_handoff tool handler. -/
def mark_handoff (outcome handoff_id notes : String) (sys : Sys) : ToolRun :=
  callRun sys "artifact_mark.py" (mark_handoff_args outcome handoff_id notes) markRespond

/-- Argument vector built by query_artifacts: a non-empty by_span_id takes
the identifier path, otherwise the whitespace-split query terms followed by
the type, limit and optional outcome filters; --with-content and --json are
appended afterwards in both paths. -/
def query_artifacts_args (query artifact_type outcome : String) (limit : Int)
    (with_content : Bool) (by_span_id : String) : List String :=
  (if by_span_id ≠ "" then
    ["--by-span-id", by_span_id]
  else
    pySplit query
    ++ ["--type", artifact_type]
    ++ ["--limit", toString limit]
    ++ (if outcome ≠ "" then ["--outcome", outcome] else []))
  ++ (if with_content then ["--with-content"] else [])
  ++ ["--json"]

/-- Normalization of the completed process in query_artifacts. -/
def queryRespond (result : CompletedProcess) : PyDict :=
  if result.returncode ≠ 0 then
    [("success", .bool false),
     ("error", .str (pyOr result.stderr "Unknown error")),
     ("stdout", .str result.stdout)]
  else
    match json_loads result.stdout with
    | some artifacts =>
      [("success", .bool true),
       ("artifacts", .json artifacts),
       ("count", .int (jsonCount artifacts))]
    | none =>
      [("success", .bool true),
       ("raw_output", .str (pyStrip result.stdout))]

/-- The query_artifacts tool handler. -/
def query_artifacts (query artifact_type outcome : String) (limit : Int)
    (with_content : Bool) (by_span_id : String) (sys : Sys) : ToolRun :=
  callRun sys "artifact_query.py"
    (query_artifacts_args query artifact_type outcome limit with_content by_span_id)
    queryRespond

/-- Text of the fault converted at the dispatch boundary. -/
def faultText : Fault → String
  | .timeoutExpired cmd t =>
    "Command " ++ String.intercalate " " cmd ++ " timed out after " ++ toString t ++ " seconds"

/-- Modelled from the spec: the MCP dispatch boundary (the FastMCP framework
wrapping each tool handler, not part of src/) — every error is caught and
converted into the uniform failure shape at the dispatch boundary, so the
host only ever sees well-formed tool responses, never raw faults. -/
def dispatch (t : ToolRun) : PyDict :=
  match t.result with
  | .response d => d
  | .fault f => [("isError", .bool true), ("error", .str (faultText f))]

/-- The uniform structured execution-failure shape produced at the dispatch
boundary for a raised fault. -/
def uniformFailureShape (d : PyDict) : Prop :=
  ∃ msg, d = [("isError", .bool true), ("error", .str msg)]

/-- An oracle under which every external process behaves the same way. -/
def constSys (dur : Nat) (r : CompletedProcess) : Sys := fun _ => ⟨dur, r⟩

theorem run_opc_script_completed {dur : Nat} {r : CompletedProcess}
    (h : dur ≤ subprocessTimeout) (script : String) (args : List String) :
    run_opc_script (constSys dur r) script args = .ok r := by
  simp [run_opc_script, constSys, Nat.not_lt.mpr h]

theorem run_opc_script_timedOut {dur : Nat} {r : CompletedProcess}
    (h : subprocessTimeout < dur) (script : String) (args : List String) :
    run_opc_script (constSys dur r) script args = .timedOut := by
  simp [run_opc_script, constSys, h]

theorem callRun_completed {dur : Nat} {r : CompletedProcess}
    (h : dur ≤ subprocessTimeout) (script : String) (args : List String)
    (respond : CompletedProcess → PyDict) :
    callRun (constSys dur r) script args respond =
      ⟨[opcCmd script args], false, .response (respond r)⟩ := by
  simp [callRun, run_opc_script_completed h]

theorem callRun_timedOut {dur : Nat} {r : CompletedProcess}
    (h : subprocessTimeout < dur) (script : String) (args : List String)
    (respond : CompletedProcess → PyDict) :
    callRun (constSys dur r) script args respond =
      ⟨[opcCmd script args], true,
       .fault (.timeoutExpired (opcCmd script args) subprocessTimeout)⟩ := by
  simp [callRun, run_opc_script_timedOut h]

theorem index_artifacts_run {mode : String}
    (hmode : mode = "all" ∨ mode = "handoffs" ∨ mode = "plans" ∨ mode = "continuity")
    (file_path : String) (sys : Sys) :
    index_artifacts mode file_path sys =
      callRun sys "artifact_index.py" ["--" ++ mode] indexRespond := by
  rcases hmode with rfl | rfl | rfl | rfl <;> rfl

theorem pyOr_ne_empty (s dflt : String) (hd : dflt ≠ "") : pyOr s dflt ≠ "" := by
  unfold pyOr
  split
  · exact hd
  · next hs => exact hs

/-- C1: for every tool invocation whose external process exceeds the
60-second timeout, the process is terminated (killed = true) and the
dispatched tool call is the uniform structured execution-failure response;
the timeout never escapes the dispatch boundary as an uncaught fault. -/
theorem c1_timeout_structured_failure
    (dur : Nat) (r : CompletedProcess) (hdur : subprocessTimeout < dur)
    (content learning_type session_id context tags confidence : String)
    (query : String) (k : Int) (text_only vector_only : Bool) (threshold_str : String)
    (mode file_path : String)
    (hmode : mode = "all" ∨ mode = "handoffs" ∨ mode = "plans" ∨ mode = "continuity")
    (outcome handoff_id notes : String)
    (q2 artifact_type oc : String) (limit : Int) (with_content : Bool) (by_span_id : String) :
    ((store_learning content learning_type session_id context tags confidence
        (constSys dur r)).killed = true ∧
      uniformFailureShape (dispatch (store_learning content learning_type session_id
        context tags confidence (constSys dur r)))) ∧
    ((recall_learnings query k text_only vector_only threshold_str
        (constSys dur r)).killed = true ∧
      uniformFailureShape (dispatch (recall_learnings query k text_only vector_only
        threshold_str (constSys dur r)))) ∧
    ((index_artifacts mode file_path (constSys dur r)).killed = true ∧
      uniformFailureShape (dispatch (index_artifacts mode file_path (constSys dur r)))) ∧
    ((mark_handoff outcome handoff_id notes (constSys dur r)).killed = true ∧
      uniformFailureShape (dispatch (mark_handoff outcome handoff_id notes
        (constSys dur r)))) ∧
    ((query_artifacts q2 artifact_type oc limit with_content by_span_id
        (constSys dur r)).killed = true ∧
      uniformFailureShape (dispatch (query_artifacts q2 artifact_type oc limit
        with_content by_span_id (constSys dur r)))) := by
  simp only [store_learning, recall_learnings, mark_handoff, query_artifacts,
    index_artifacts_run hmode, callRun_timedOut hdur, dispatch, uniformFailureShape]
  simp

/-- Witness for C1 at a concrete 61-second process behaviour. -/
theorem c1_witness :
    subprocessTimeout < 61 ∧
    ("all" = "all" ∨ "all" = "handoffs" ∨ "all" = "plans" ∨ "all" = "continuity") ∧
    (((store_learning "c" "WORKING_SOLUTION" "s" "" "" "medium"
        (constSys 61 ⟨0, "", ""⟩)).killed = true ∧
      uniformFailureShape (dispatch (store_learning "c" "WORKING_SOLUTION" "s" "" ""
        "medium" (constSys 61 ⟨0, "", ""⟩)))) ∧
    ((recall_learnings "q" 1 false false "0.2" (constSys 61 ⟨0, "", ""⟩)).killed = true ∧
      uniformFailureShape (dispatch (recall_learnings "q" 1 false false "0.2"
        (constSys 61 ⟨0, "", ""⟩)))) ∧
    ((index_artifacts "all" "" (constSys 61 ⟨0, "", ""⟩)).killed = true ∧
      uniformFailureShape (dispatch (index_artifacts "all" "" (constSys 61 ⟨0, "", ""⟩)))) ∧
    ((mark_handoff "SUCCEEDED" "" "" (constSys 61 ⟨0, "", ""⟩)).killed = true ∧
      uniformFailureShape (dispatch (mark_handoff "SUCCEEDED" "" ""
        (constSys 61 ⟨0, "", ""⟩)))) ∧
    ((query_artifacts "q" "all" "" 5 false "" (constSys 61 ⟨0, "", ""⟩)).killed = true ∧
      uniformFailureShape (dispatch (query_artifacts "q" "all" "" 5 false ""
        (constSys 61 ⟨0, "", ""⟩))))) :=
  ⟨by decide, Or.inl rfl,
   c1_timeout_structured_failure 61 ⟨0, "", ""⟩ (by decide)
     "c" "WORKING_SOLUTION" "s" "" "" "medium" "q" 1 false false "0.2" "all" ""
     (Or.inl rfl) "SUCCEEDED" "" "" "q" "all" "" 5 false ""⟩

/-- C2: for every completed process with non-zero exit status, every tool
returns a failure response whose error field is the captured stderr (or the
generic unknown-error marker when stderr is empty) and whose stdout field is
the captured stdout exactly. -/
theorem c2_nonzero_exit_failure_shape
    (dur : Nat) (r : CompletedProcess) (hdur : dur ≤ subprocessTimeout)
    (hrc : r.returncode ≠ 0)
    (content learning_type session_id context tags confidence : String)
    (query : String) (k : Int) (text_only vector_only : Bool) (threshold_str : String)
    (mode file_path : String)
    (hmode : mode = "all" ∨ mode = "handoffs" ∨ mode = "plans" ∨ mode = "continuity")
    (outcome handoff_id notes : String)
    (q2 artifact_type oc : String) (limit : Int) (with_content : Bool) (by_span_id : String) :
    (store_learning content learning_type session_id context tags confidence
        (constSys dur r)).result =
      .response [("success", .bool false),
                 ("error", .str (pyOr r.stderr "Unknown error")),
                 ("stdout", .str r.stdout)] ∧
    (recall_learnings query k text_only vector_only threshold_str (constSys dur r)).result =
      .response [("success", .bool false),
                 ("error", .str (pyOr r.stderr "Unknown error")),
                 ("stdout", .str r.stdout)] ∧
    (index_artifacts mode file_path (constSys dur r)).result =
      .response [("success", .bool false),
                 ("error", .str (pyOr r.stderr "Unknown error")),
                 ("stdout", .str r.stdout)] ∧
    (mark_handoff outcome handoff_id notes (constSys dur r)).result =
      .response [("success", .bool false),
                 ("error", .str (pyOr r.stderr "Unknown error")),
                 ("stdout", .str r.stdout)] ∧
    (query_artifacts q2 artifact_type oc limit with_content by_span_id
        (constSys dur r)).result =
      .response [("success", .bool false),
                 ("error", .str (pyOr r.stderr "Unknown error")),
                 ("stdout", .str r.stdout)] := by
  simp only [store_learning, recall_learnings, mark_handoff, query_artifacts,
    index_artifacts_run hmode, callRun_completed hdur]
  simp [storeRespond, recallRespond, indexRespond, markRespond, queryRespond, hrc]

/-- Witness for C2 at a concrete failing process with empty stderr. -/
theorem c2_witness :
    (0 : Nat) ≤ subprocessTimeout ∧
    (CompletedProcess.mk 2 "leftover out" "").returncode ≠ 0 ∧
    (store_learning "c" "WORKING_SOLUTION" "s" "" "" "medium"
        (constSys 0 ⟨2, "leftover out", ""⟩)).result =
      .response [("success", .bool false),
                 ("error", .str (pyOr (CompletedProcess.mk 2 "leftover out" "").stderr
                   "Unknown error")),
                 ("stdout", .str (CompletedProcess.mk 2 "leftover out" "").stdout)] ∧
    (recall_learnings "q" 1 false false "0.2" (constSys 0 ⟨2, "leftover out", ""⟩)).result =
      .response [("success", .bool false),
                 ("error", .str (pyOr (CompletedProcess.mk 2 "leftover out" "").stderr
                   "Unknown error")),
                 ("stdout", .str (CompletedProcess.mk 2 "leftover out" "").stdout)] ∧
    (index_artifacts "all" "" (constSys 0 ⟨2, "leftover out", ""⟩)).result =
      .response [("success", .bool false),
                 ("error", .str (pyOr (CompletedProcess.mk 2 "leftover out" "").stderr
                   "Unknown error")),
                 ("stdout", .str (CompletedProcess.mk 2 "leftover out" "").stdout)] ∧
    (mark_handoff "FAILED" "" "" (constSys 0 ⟨2, "leftover out", ""⟩)).result =
      .response [("success", .bool false),
                 ("error", .str (pyOr (CompletedProcess.mk 2 "leftover out" "").stderr
                   "Unknown error")),
                 ("stdout", .str (CompletedProcess.mk 2 "leftover out" "").stdout)] ∧
    (query_artifacts "q" "all" "" 5 false "" (constSys 0 ⟨2, "leftover out", ""⟩)).result =
      .response [("success", .bool false),
                 ("error", .str (pyOr (CompletedProcess.mk 2 "leftover out" "").stderr
                   "Unknown error")),
                 ("stdout", .str (CompletedProcess.mk 2 "leftover out" "").stdout)] :=
  ⟨by decide, by decide,
   c2_nonzero_exit_failure_shape 0 ⟨2, "leftover out", ""⟩ (by decide) (by decide)
     "c" "WORKING_SOLUTION" "s" "" "" "medium" "q" 1 false false "0.2" "all" ""
     (Or.inl rfl) "FAILED" "" "" "q" "all" "" 5 false ""⟩

/-- C3: for every completed process with exit status 0 whose stdout does not
decode as JSON, recall_learnings and query_artifacts return a success
response whose payload is the whitespace-trimmed stdout; decode failure on a
zero exit status is never surfaced as an error. -/
theorem c3_decode_failure_raw_success
    (dur : Nat) (r : CompletedProcess) (hdur : dur ≤ subprocessTimeout)
    (hrc : r.returncode = 0) (hjson : json_loads r.stdout = none)
    (query : String) (k : Int) (text_only vector_only : Bool) (threshold_str : String)
    (q2 artifact_type oc : String) (limit : Int) (with_content : Bool) (by_span_id : String) :
    (recall_learnings query k text_only vector_only threshold_str (constSys dur r)).result =
      .response [("success", .bool true),
                 ("raw_output", .str (pyStrip r.stdout))] ∧
    (query_artifacts q2 artifact_type oc limit with_content by_span_id
        (constSys dur r)).result =
      .response [("success", .bool true),
                 ("raw_output", .str (pyStrip r.stdout))] := by
  simp only [recall_learnings, query_artifacts, callRun_completed hdur]
  simp [recallRespond, queryRespond, hrc, hjson]

/-- Witness for C3 at a concrete zero-exit process printing non-JSON text. -/
theorem c3_witness :
    (0 : Nat) ≤ subprocessTimeout ∧
    (CompletedProcess.mk 0 "  done  " "").returncode = 0 ∧
    json_loads "  done  " = none ∧
    (recall_learnings "q" 1 false false "0.2" (constSys 0 ⟨0, "  done  ", ""⟩)).result =
      .response [("success", .bool true),
                 ("raw_output", .str (pyStrip "  done  "))] ∧
    (query_artifacts "q" "all" "" 5 false "" (constSys 0 ⟨0, "  done  ", ""⟩)).result =
      .response [("success", .bool true),
                 ("raw_output", .str (pyStrip "  done  "))] :=
  ⟨by decide, by decide, by rfl,
   c3_decode_failure_raw_success 0 ⟨0, "  done  ", ""⟩ (by decide) (by decide) (by rfl)
     "q" 1 false false "0.2" "q" "all" "" 5 false ""⟩

/-- C4: for every completed process with exit status 0 whose stdout decodes
as JSON, recall_learnings and query_artifacts return a success response
carrying the decoded payload and a count equal to the number of elements for
a sequence and 1 otherwise; stdout [] decodes to the empty sequence, whose
count is 0. -/
theorem c4_decoded_payload_count
    (dur : Nat) (r : CompletedProcess) (v : Json) (hdur : dur ≤ subprocessTimeout)
    (hrc : r.returncode = 0) (hjson : json_loads r.stdout = some v)
    (query : String) (k : Int) (text_only vector_only : Bool) (threshold_str : String)
    (q2 artifact_type oc : String) (limit : Int) (with_content : Bool) (by_span_id : String) :
    (recall_learnings query k text_only vector_only threshold_str (constSys dur r)).result =
      .response [("success", .bool true),
                 ("learnings", .json v),
                 ("count", .int (jsonCount v))] ∧
    (query_artifacts q2 artifact_type oc limit with_content by_span_id
        (constSys dur r)).result =
      .response [("success", .bool true),
                 ("artifacts", .json v),
                 ("count", .int (jsonCount v))] ∧
    json_loads "[]" = some (Json.arr []) ∧
    jsonCount (Json.arr []) = 0 := by
  refine ⟨?_, ?_, rfl, rfl⟩ <;>
  · simp only [recall_learnings, query_artifacts, callRun_completed hdur]
    simp [recallRespond, queryRespond, hrc, hjson]

/-- Witness for C4 at a concrete zero-exit process printing the empty JSON
array, for which the surfaced count is 0. -/
theorem c4_witness :
    (0 : Nat) ≤ subprocessTimeout ∧
    (CompletedProcess.mk 0 "[]" "").returncode = 0 ∧
    json_loads "[]" = some (Json.arr []) ∧
    (recall_learnings "q" 1 false false "0.2" (constSys 0 ⟨0, "[]", ""⟩)).result =
      .response [("success", .bool true),
                 ("learnings", .json (Json.arr [])),
                 ("count", .int (jsonCount (Json.arr [])))] ∧
    (query_artifacts "q" "all" "" 5 false "" (constSys 0 ⟨0, "[]", ""⟩)).result =
      .response [("success", .bool true),
                 ("artifacts", .json (Json.arr [])),
                 ("count", .int (jsonCount (Json.arr [])))] ∧
    json_loads "[]" = some (Json.arr []) ∧
    jsonCount (Json.arr []) = 0 :=
  ⟨by decide, by decide, by rfl,
   c4_decoded_payload_count 0 ⟨0, "[]", ""⟩ (Json.arr []) (by decide) (by decide) (by rfl)
     "q" 1 false false "0.2" "q" "all" "" 5 false ""⟩

/-- C5 counterexample: mark_handoff called with an outcome outside the
documented set is not rejected at any validation stage — it spawns the
external process with the invalid value and, for a zero-exit stub process,
reports success. -/
theorem c5_counterexample :
    (mark_handoff "NOT_AN_OUTCOME" "" "" (constSys 0 ⟨0, "", ""⟩)).spawned =
      [["uv", "run", "python", "scripts/core/artifact_mark.py",
        "--outcome", "NOT_AN_OUTCOME"]] ∧
    (mark_handoff "NOT_AN_OUTCOME" "" "" (constSys 0 ⟨0, "", ""⟩)).spawned ≠ [] ∧
    (mark_handoff "NOT_AN_OUTCOME" "" "" (constSys 0 ⟨0, "", ""⟩)).result =
      .response [("success", .bool true),
                 ("message", .str "Handoff marked successfully")] :=
  ⟨rfl, by rw [show (mark_handoff "NOT_AN_OUTCOME" "" "" (constSys 0 ⟨0, "", ""⟩)).spawned =
      [["uv", "run", "python", "scripts/core/artifact_mark.py",
        "--outcome", "NOT_AN_OUTCOME"]] from rfl]; simp, rfl⟩

/-- C5 amended: mark_handoff performs no client-side validation of the
outcome parameter; every outcome value, including values outside the
documented set, is forwarded unchanged as the --outcome argument of a
spawned external process. -/
theorem c5_outcome_forwarded_unvalidated (outcome handoff_id notes : String) (sys : Sys) :
    (mark_handoff outcome handoff_id notes sys).spawned =
      [opcCmd "artifact_mark.py"
        (["--outcome", outcome]
         ++ (if handoff_id ≠ "" then ["--id", handoff_id] else [])
         ++ (if notes ≠ "" then ["--notes", notes] else []))] := by
  simp only [mark_handoff, callRun, mark_handoff_args]
  split <;> rfl

/-- C6 counterexample: query_artifacts called with both the free-text query
and the by-span-id identifier empty is not rejected — it spawns the external
process with only filter and output-format tokens and, for a zero-exit stub
process printing an empty JSON array, reports success. -/
theorem c6_counterexample :
    (query_artifacts "" "all" "" 5 false "" (constSys 0 ⟨0, "[]", ""⟩)).spawned =
      [["uv", "run", "python", "scripts/core/artifact_query.py",
        "--type", "all", "--limit", "5", "--json"]] ∧
    (query_artifacts "" "all" "" 5 false "" (constSys 0 ⟨0, "[]", ""⟩)).spawned ≠ [] ∧
    (query_artifacts "" "all" "" 5 false "" (constSys 0 ⟨0, "[]", ""⟩)).result =
      .response [("success", .bool true),
                 ("artifacts", .json (Json.arr [])),
                 ("count", .int 0)] :=
  ⟨rfl, by rw [show (query_artifacts "" "all" "" 5 false "" (constSys 0 ⟨0, "[]", ""⟩)).spawned =
      [["uv", "run", "python", "scripts/core/artifact_query.py",
        "--type", "all", "--limit", "5", "--json"]] from rfl]; simp, rfl⟩

/-- C6 amended: query_artifacts performs no validation of its parameters;
when both the free-text query and the by-span-id identifier are empty
strings it spawns the external process with no positional query terms, only
the type and limit filters, the optional outcome and with-content flags, and
the JSON output flag. -/
theorem c6_empty_query_spawns (artifact_type outcome : String) (limit : Int)
    (with_content : Bool) (sys : Sys) :
    (query_artifacts "" artifact_type outcome limit with_content "" sys).spawned =
      [opcCmd "artifact_query.py"
        (["--type", artifact_type, "--limit", toString limit]
         ++ (if outcome ≠ "" then ["--outcome", outcome] else [])
         ++ (if with_content then ["--with-content"] else [])
         ++ ["--json"])] := by
  simp only [query_artifacts, callRun, query_artifacts_args]
  split <;> simp [pySplit, pySplitChars]

/-- C7: index_artifacts rejects every mode outside the accepted set with a
structured failure naming the invalid value and the accepted set, and
rejects mode=file with an empty file path with a structured failure naming
the missing field; in both cases no external process is spawned. -/
theorem c7_index_validation
    (mode file_path : String) (sys sys2 : Sys)
    (hmode : mode ≠ "all" ∧ mode ≠ "handoffs" ∧ mode ≠ "plans" ∧
      mode ≠ "continuity" ∧ mode ≠ "file") :
    index_artifacts mode file_path sys =
      ⟨[], false,
       .response [("success", .bool false),
                  ("error", .str ("Invalid mode: " ++ mode ++
                    ". Use: all, handoffs, plans, continuity, or file"))]⟩ ∧
    index_artifacts "file" "" sys2 =
      ⟨[], false,
       .response [("success", .bool false),
                  ("error", .str "file_path is required when mode=file")]⟩ := by
  obtain ⟨h1, h2, h3, h4, h5⟩ := hmode
  refine ⟨?_, rfl⟩
  simp [index_artifacts, index_artifacts_build, h1, h2, h3, h4, h5]

/-- Witness for C7 at the concrete invalid mode value bogus. -/
theorem c7_witness :
    ("bogus" ≠ "all" ∧ "bogus" ≠ "handoffs" ∧ "bogus" ≠ "plans" ∧
      "bogus" ≠ "continuity" ∧ "bogus" ≠ "file") ∧
    index_artifacts "bogus" "some/path" (constSys 0 ⟨0, "", ""⟩) =
      ⟨[], false,
       .response [("success", .bool false),
                  ("error", .str ("Invalid mode: " ++ "bogus" ++
                    ". Use: all, handoffs, plans, continuity, or file"))]⟩ ∧
    index_artifacts "file" "" (constSys 0 ⟨0, "", ""⟩) =
      ⟨[], false,
       .response [("success", .bool false),
                  ("error", .str "file_path is required when mode=file")]⟩ :=
  ⟨by decide,
   c7_index_validation "bogus" "some/path" (constSys 0 ⟨0, "", ""⟩) (constSys 0 ⟨0, "", ""⟩)
     (by decide)⟩

/-- C8: whenever by_span_id is non-empty, the argument vector spawned by
query_artifacts is exactly the identifier lookup followed by the optional
with-content flag and the JSON flag — it contains no tokens derived from the
free-text query and no type, limit or outcome filter tokens, whatever those
parameters hold, and the call proceeds without any validation error. -/
theorem c8_span_id_short_circuit
    (query artifact_type outcome : String) (limit : Int) (with_content : Bool)
    (by_span_id : String) (sys : Sys) (h : by_span_id ≠ "") :
    (query_artifacts query artifact_type outcome limit with_content by_span_id sys).spawned =
      [opcCmd "artifact_query.py"
        (["--by-span-id", by_span_id]
         ++ (if with_content then ["--with-content"] else [])
         ++ ["--json"])] := by
  simp only [query_artifacts, callRun, query_artifacts_args, if_pos h]
  split <;> rfl

/-- Witness for C8 at a concrete non-empty identifier with every other
parameter set to a value that would otherwise produce tokens. -/
theorem c8_witness :
    "span123" ≠ "" ∧
    (query_artifacts "database migration" "handoffs" "FAILED" 3 true "span123"
        (constSys 0 ⟨0, "", ""⟩)).spawned =
      [opcCmd "artifact_query.py"
        (["--by-span-id", "span123"]
         ++ (if true then ["--with-content"] else [])
         ++ ["--json"])] :=
  ⟨by decide,
   c8_span_id_short_circuit "database migration" "handoffs" "FAILED" 3 true "span123"
     (constSys 0 ⟨0, "", ""⟩) (by decide)⟩

/-- C9: evaluation of get_opc_dir at a state where the environment override
is unset and the settings file exists and reads as the valid JSON text []
(an array, not an object).  The code calls the attribute get on the decoded
list, raising AttributeError, which the except clause (catching only
json.JSONDecodeError and OSError) does not intercept — resolution raises
instead of falling through to the hardcoded fallback. -/
theorem c9_settings_array_raises :
    get_opc_dir ⟨none, fun _ => false, true, .ok "[]"⟩ =
      .error .attributeError := rfl

/-- C10: for every completed process with exit status 0, store_learning,
index_artifacts and mark_handoff produce a success message equal to the
trimmed stdout when that is non-empty and the tool-specific default message
otherwise, and the message is never the empty string. -/
theorem c10_success_message_nonempty
    (dur : Nat) (r : CompletedProcess) (hdur : dur ≤ subprocessTimeout)
    (hrc : r.returncode = 0)
    (content learning_type session_id context tags confidence : String)
    (mode file_path : String)
    (hmode : mode = "all" ∨ mode = "handoffs" ∨ mode = "plans" ∨ mode = "continuity")
    (outcome handoff_id notes : String) :
    (store_learning content learning_type session_id context tags confidence
        (constSys dur r)).result =
      .response [("success", .bool true),
                 ("message", .str (pyOr (pyStrip r.stdout) "Learning stored successfully"))] ∧
    (index_artifacts mode file_path (constSys dur r)).result =
      .response [("success", .bool true),
                 ("message", .str (pyOr (pyStrip r.stdout) "Artifacts indexed successfully"))] ∧
    (mark_handoff outcome handoff_id notes (constSys dur r)).result =
      .response [("success", .bool true),
                 ("message", .str (pyOr (pyStrip r.stdout) "Handoff marked successfully"))] ∧
    pyOr (pyStrip r.stdout) "Learning stored successfully" ≠ "" ∧
    pyOr (pyStrip r.stdout) "Artifacts indexed successfully" ≠ "" ∧
    pyOr (pyStrip r.stdout) "Handoff marked successfully" ≠ "" := by
  refine ⟨?_, ?_, ?_, pyOr_ne_empty _ _ (by decide), pyOr_ne_empty _ _ (by decide),
    pyOr_ne_empty _ _ (by decide)⟩ <;>
  · simp only [store_learning, index_artifacts_run hmode, mark_handoff,
      callRun_completed hdur]
    simp [storeRespond, indexRespond, markRespond, hrc]

/-- Witness for C10 at a concrete zero-exit process with whitespace-only
stdout, exercising the default messages. -/
theorem c10_witness :
    (0 : Nat) ≤ subprocessTimeout ∧
    (CompletedProcess.mk 0 "  " "").returncode = 0 ∧
    (store_learning "c" "WORKING_SOLUTION" "s" "" "" "medium"
        (constSys 0 ⟨0, "  ", ""⟩)).result =
      .response [("success", .bool true),
                 ("message", .str (pyOr (pyStrip "  ") "Learning stored successfully"))] ∧
    (index_artifacts "all" "" (constSys 0 ⟨0, "  ", ""⟩)).result =
      .response [("success", .bool true),
                 ("message", .str (pyOr (pyStrip "  ") "Artifacts indexed successfully"))] ∧
    (mark_handoff "SUCCEEDED" "" "" (constSys 0 ⟨0, "  ", ""⟩)).result =
      .response [("success", .bool true),
                 ("message", .str (pyOr (pyStrip "  ") "Handoff marked successfully"))] ∧
    pyOr (pyStrip "  ") "Learning stored successfully" ≠ "" ∧
    pyOr (pyStrip "  ") "Artifacts indexed successfully" ≠ "" ∧
    pyOr (pyStrip "  ") "Handoff marked successfully" ≠ "" :=
  ⟨by decide, by decide,
   c10_success_message_nonempty 0 ⟨0, "  ", ""⟩ (by decide) (by decide)
     "c" "WORKING_SOLUTION" "s" "" "" "medium" "all" "" (Or.inl rfl) "SUCCEEDED" "" ""⟩

end OpcMemory
